import Mathlib

/-
Verification of the CRM backend's metric engine and qualification engine.

The definitions below are a shallow embedding of the Python code in
backend/routes/kpis.py, backend/routes/qualification.py,
backend/routes/metric_settings.py and backend/server.py:

- Mongo documents become Lean structures; a dictionary key that may be
  absent becomes an `Option` field, and Python truthiness tests on
  optional strings/lists are embedded explicitly (`truthyStr`, `getD`).
- Dates are embedded as integer day numbers (the pipelines subtract
  `$dateFromString` results and divide by 86400000 ms, so a date-only
  string yields a whole number of days); "today" is a parameter.
- MongoDB aggregation pipelines over the `leads` collection become list
  operations over a `List Lead` population, with the handler's
  `base_query` abstracted as a predicate `Lead → Bool`.
- Python `round(x, n)` (round half to even) becomes `pyRound` on ℚ;
  `str.split("+")` becomes `splitPlus`; `str.strip()` becomes `pyStrip`.
- Timestamp bookkeeping fields (`answered_at`, `updated_at`,
  `qualified_at`) are not modelled: no claim mentions them.
-/

/-- Python truthiness of an optional string value fetched with
`dict.get`: truthy exactly when present and non-empty. -/
def truthyStr : Option String → Bool
  | none => false
  | some s => s ≠ ""

/-- Round half to even on ℚ, the rounding mode of Python `round`. -/
def roundHalfEven (q : ℚ) : ℤ :=
  let f := ⌊q⌋
  let r := q - f
  if r < 1/2 then f
  else if 1/2 < r then f + 1
  else if f % 2 = 0 then f else f + 1

/-- Embedding of Python `round(q, nd)` on exact rationals. -/
def pyRound (q : ℚ) (nd : ℕ) : ℚ :=
  (roundHalfEven (q * 10 ^ nd) : ℚ) / 10 ^ nd

/-- Whitespace characters removed by Python `str.strip()`. -/
def pyIsSpace (c : Char) : Bool :=
  c = ' ' || c = '\t' || c = '\n' || c = '\r'

/-- Embedding of Python `str.strip()`. -/
def pyStrip (s : String) : String :=
  String.mk (((s.toList.dropWhile pyIsSpace).reverse.dropWhile pyIsSpace).reverse)

/-- Helper for `splitPlus`: accumulates the current token in reverse. -/
def splitPlusAux : List Char → List Char → List String
  | [], acc => [String.mk acc.reverse]
  | c :: cs, acc =>
    if c = '+' then String.mk acc.reverse :: splitPlusAux cs []
    else splitPlusAux cs (c :: acc)

/-- Embedding of Python `s.split("+")`: splits at every '+', keeping
empty tokens, as the source does in kpis.py lines 124-125 and 262-263. -/
def splitPlus (s : String) : List String :=
  splitPlusAux s.toList []

/-- One entry of a lead's stored `qualification_answers` list, as built
by qualify_lead (qualification.py lines 236-242); the `answered_at` and
`answered_by` bookkeeping fields are not modelled. -/
structure StoredAnswer where
  question_id : String
  option_id : Option String
  score : Int

/-- A lead document, restricted to the fields the two engines read.
`enquiry_date` is a day number; `last_followup_date` is `none` when the
field is absent (the closure pipeline's `$exists`/`$ne` match). -/
structure Lead where
  enquiry_stage : String
  enquiry_status : String
  enquiry_type : String
  segment : String
  enquiry_date : Int
  last_followup_date : Option Int := none
  is_qualified : Option Bool := none
  qualification_score : Option Int := none
  qualification_answers : List StoredAnswer := []

/-- A metric_settings document. Every key that the Python code reads
with `dict.get` (so may be missing) is an `Option` or carries the
corresponding default. -/
structure MetricDoc where
  metric_id : String
  metric_type : Option String := none
  field_name : Option String := none
  field_values : Option (List String) := none
  numerator_metric : Option String := none
  denominator_metric : Option String := none
  start_date_field : Option String := none
  end_date_field : Option String := none
  filter_stages : Option (List String) := none
  is_active : Option Bool := none
  is_custom : Option Bool := none

/-- Dynamic field access `{field_name: {"$in": field_values}}` on a lead
document, for the field names that metric configs can name. A missing
field matches nothing. -/
def getField (l : Lead) (fn : String) : Option String :=
  if fn = "enquiry_stage" then some l.enquiry_stage
  else if fn = "enquiry_status" then some l.enquiry_status
  else if fn = "enquiry_type" then some l.enquiry_type
  else if fn = "segment" then some l.segment
  else none

/-- Embedding of `count_by_metric` (kpis.py lines 43-55): 0 for a
missing config, an inactive config (`is_active` defaulting to true when
absent), or a config with falsy `field_name`/`field_values`; otherwise
the count of base-filtered leads whose field value is in `field_values`. -/
def count_by_metric (leads : List Lead) (baseQ : Lead → Bool)
    (cfg : Option MetricDoc) : ℕ :=
  match cfg with
  | none => 0
  | some c =>
    if !(c.is_active.getD true) then 0
    else
      let fn := c.field_name.getD ""
      let fvs := c.field_values.getD []
      if fn = "" || fvs.isEmpty then 0
      else
        (leads.filter (fun l =>
          baseQ l &&
            (match getField l fn with
             | some v => fvs.contains v
             | none => false))).length

/-- Lookup in an association list standing for a Python dict of metric
values, with `dict.get(key, 0)` semantics. -/
def lookupVal (vals : List (String × ℚ)) (k : String) : ℚ :=
  match vals.find? (fun p => p.1 = k) with
  | some p => p.2
  | none => 0

/-- Key membership, `key in dict`. -/
def hasKey (vals : List (String × ℚ)) (k : String) : Bool :=
  (vals.find? (fun p => p.1 = k)).isSome

/-- Numerator/denominator sum of the conversion-rate path (kpis.py
lines 138-139): split on "+", strip each token, `dict.get(token, 0)`. -/
def sumMetricTokens (vals : List (String × ℚ)) (expr : String) : ℚ :=
  ((splitPlus expr).map (fun m => lookupVal vals (pyStrip m))).sum

/-- Numerator/denominator sum of the dashboard formula path (kpis.py
lines 265-266): as `sumMetricTokens` but tokens that strip to the empty
string are dropped by the `if m.strip()` guard. -/
def sumMetricTokensDash (vals : List (String × ℚ)) (expr : String) : ℚ :=
  ((((splitPlus expr).map pyStrip).filter (fun m => m ≠ "")).map
    (lookupVal vals)).sum

/-- Default conversion formula Won / (Won + Lost) (kpis.py lines
142-144). -/
def defaultConversion (won lost : ℚ) : ℚ :=
  if 0 < won + lost then won / (won + lost) * 100 else 0

/-- Embedding of the conversion-rate computation (kpis.py lines
122-144): the configured formula when the config exists and has truthy
`numerator_metric` and `denominator_metric`, else the default formula. -/
def conversionRate (cfg : Option MetricDoc) (vals : List (String × ℚ))
    (won lost : ℚ) : ℚ :=
  match cfg with
  | some c =>
    if truthyStr c.numerator_metric && truthyStr c.denominator_metric then
      let numerator := sumMetricTokens vals (c.numerator_metric.getD "won_leads")
      let denominator :=
        sumMetricTokens vals (c.denominator_metric.getD "won_leads+lost_leads")
      if 0 < denominator then numerator / denominator * 100 else 0
    else defaultConversion won lost
  | none => defaultConversion won lost

/-- The conversion rate as exposed to the caller (kpis.py lines 248 and
298): rounded to 2 decimal places. -/
def exposedConversionRate (cfg : Option MetricDoc) (vals : List (String × ℚ))
    (won lost : ℚ) : ℚ :=
  pyRound (conversionRate cfg vals won lost) 2

/-- Embedding of the dashboard formula-metric computation (kpis.py lines
262-267): rounded ratio of token sums, 0 when the denominator sum is not
positive. -/
def evalFormulaDash (vals : List (String × ℚ)) (num den : String) : ℚ :=
  let numerator := sumMetricTokensDash vals num
  let denominator := sumMetricTokensDash vals den
  if 0 < denominator then pyRound (numerator / denominator * 100) 2 else 0

/-- Embedding of the per-metric dashboard evaluation (kpis.py lines
253-270): `metric_type` defaults to "count" when the key is missing;
"calculated" metrics read the pre-calculated value when present, and
everything that is neither a known calculated value nor a formula falls
through to `count_by_metric`. -/
def dashboardValue (leads : List Lead) (baseQ : Lead → Bool)
    (vals : List (String × ℚ)) (m : MetricDoc) : ℚ :=
  let mt := m.metric_type.getD "count"
  if mt = "calculated" && hasKey vals m.metric_id then
    lookupVal vals m.metric_id
  else if mt = "formula" then
    evalFormulaDash vals (m.numerator_metric.getD "")
      (m.denominator_metric.getD "")
  else
    ((count_by_metric leads baseQ (some m) : ℕ) : ℚ)

/-- The fixed `metric_schema` type table of the startup migration
(server.py lines 109-178), restricted to the `metric_type` entry that
the missing-type branch reads. -/
def metricSchemaType (id : String) : Option String :=
  if id = "total_leads" || id = "won_leads" || id = "lost_leads" ||
      id = "open_leads" || id = "closed_leads" || id = "hot_leads" ||
      id = "warm_leads" || id = "cold_leads" then some "count"
  else if id = "avg_lead_age" || id = "avg_closure_time" then some "calculated"
  else if id = "conversion_rate" then some "formula"
  else none

/-- Embedding of the `metric_type` backfill of `migrate_metric_settings`
(server.py lines 189-199): a truthy stored type is kept; otherwise the
schema table wins for known metric ids, and only for unknown ids is the
type inferred from which parameters are truthy. -/
def migrateMetricType (m : MetricDoc) : String :=
  if truthyStr m.metric_type then m.metric_type.getD ""
  else
    match metricSchemaType m.metric_id with
    | some t => t
    | none =>
      if truthyStr m.numerator_metric || truthyStr m.denominator_metric then
        "formula"
      else if truthyStr m.start_date_field || truthyStr m.end_date_field then
        "calculated"
      else "count"

/-- The `field_name` entry of a `metric_schema` row (server.py lines
109-178): `some v` when the row has the entry, with `v` the stored
value (itself an option since total_leads carries `None`). Rows exist
only for the eleven known metric ids. -/
def schemaFieldNameEntry (id : String) : Option (Option String) :=
  if id = "total_leads" then some none
  else if id = "won_leads" || id = "lost_leads" || id = "open_leads" then
    some (some "enquiry_stage")
  else if id = "closed_leads" then some (some "enquiry_status")
  else if id = "hot_leads" || id = "warm_leads" || id = "cold_leads" then
    some (some "enquiry_type")
  else none

/-- The `field_values` entry of a `metric_schema` row. -/
def schemaFieldValuesEntry (id : String) : Option (List String) :=
  if id = "total_leads" then some []
  else if id = "won_leads" then some ["Closed-Won", "Order Booked"]
  else if id = "lost_leads" then some ["Closed-Lost", "Closed-Dropped"]
  else if id = "open_leads" then some ["Prospecting", "Qualified"]
  else if id = "closed_leads" then some ["Closed", "Order Received"]
  else if id = "hot_leads" then some ["Hot"]
  else if id = "warm_leads" then some ["Warm"]
  else if id = "cold_leads" then some ["Cold"]
  else none

/-- The `start_date_field` entry of a `metric_schema` row. -/
def schemaStartDateEntry (id : String) : Option String :=
  if id = "avg_lead_age" || id = "avg_closure_time" then some "enquiry_date"
  else none

/-- The `end_date_field` entry of a `metric_schema` row. -/
def schemaEndDateEntry (id : String) : Option String :=
  if id = "avg_lead_age" then some "today"
  else if id = "avg_closure_time" then some "last_followup_date"
  else none

/-- The `filter_stages` entry of a `metric_schema` row. -/
def schemaFilterStagesEntry (id : String) : Option (List String) :=
  if id = "avg_lead_age" then some ["Prospecting", "Qualified"]
  else if id = "avg_closure_time" then
    some ["Closed-Won", "Order Booked", "Closed-Lost", "Closed-Dropped"]
  else none

/-- The `numerator_metric` entry of a `metric_schema` row. -/
def schemaNumEntry (id : String) : Option String :=
  if id = "conversion_rate" then some "won_leads" else none

/-- The `denominator_metric` entry of a `metric_schema` row. -/
def schemaDenEntry (id : String) : Option String :=
  if id = "conversion_rate" then some "won_leads+lost_leads" else none

/-- A metric document after the startup migration `migrate_metric_settings`
(server.py lines 185-238) has run on it, restricted to the MetricDoc
fields (`unit` is display metadata never read by the evaluation paths).

The embedding mirrors the `updates` accumulation:
- `metric_type` backfill (lines 190-199) is `migrateMetricType`; since a
  truthy stored type is kept unchanged, the final type is always
  `some (migrateMetricType m)`.
- the schema loop (lines 202-206) sets each field the row carries when
  the stored field is missing or None (both `none` here), scrutinised
  row-entry first because the loop iterates over the schema row;
- the calculated/formula backfills (lines 209-222) fire when the
  effective type — stored if truthy, else the line-190 inference, which
  is exactly `migrateMetricType m` — matches, the stored value is falsy,
  and the schema loop did not already update the field (the
  `not in updates` guard). -/
def migratedDoc (m : MetricDoc) : MetricDoc :=
  let t := migrateMetricType m
  let fieldName :=
    match schemaFieldNameEntry m.metric_id, m.field_name with
    | some v, none => v
    | _, f => f
  let fieldValues :=
    match schemaFieldValuesEntry m.metric_id, m.field_values with
    | some v, none => some v
    | _, f => f
  let sd1 :=
    match schemaStartDateEntry m.metric_id, m.start_date_field with
    | some v, none => some v
    | _, f => f
  let sd :=
    if t = "calculated" && !truthyStr m.start_date_field &&
        !(m.start_date_field.isNone &&
          (schemaStartDateEntry m.metric_id).isSome) then
      some "enquiry_date"
    else sd1
  let ed1 :=
    match schemaEndDateEntry m.metric_id, m.end_date_field with
    | some v, none => some v
    | _, f => f
  let ed :=
    if t = "calculated" && !truthyStr m.end_date_field &&
        !(m.end_date_field.isNone &&
          (schemaEndDateEntry m.metric_id).isSome) then
      some "today"
    else ed1
  let fsFalsy :=
    match m.filter_stages with
    | none => true
    | some l => l.isEmpty
  let fs1 :=
    match schemaFilterStagesEntry m.metric_id, m.filter_stages with
    | some v, none => some v
    | _, f => f
  let fs :=
    if t = "calculated" && fsFalsy &&
        !(m.filter_stages.isNone &&
          (schemaFilterStagesEntry m.metric_id).isSome) then
      some []
    else fs1
  let num1 :=
    match schemaNumEntry m.metric_id, m.numerator_metric with
    | some v, none => some v
    | _, f => f
  let num :=
    if t = "formula" && !truthyStr m.numerator_metric &&
        !(m.numerator_metric.isNone && (schemaNumEntry m.metric_id).isSome) then
      some "won_leads"
    else num1
  let den1 :=
    match schemaDenEntry m.metric_id, m.denominator_metric with
    | some v, none => some v
    | _, f => f
  let den :=
    if t = "formula" && !truthyStr m.denominator_metric &&
        !(m.denominator_metric.isNone && (schemaDenEntry m.metric_id).isSome) then
      some "total_leads"
    else den1
  { m with
      metric_type := some t,
      field_name := fieldName,
      field_values := fieldValues,
      start_date_field := sd,
      end_date_field := ed,
      filter_stages := fs,
      numerator_metric := num,
      denominator_metric := den }

/-- Modelled from the spec and claim C6's words, for comparison with the
code: the claimed evaluation-time inference of a missing `metric_type`
purely from which parameters are present. -/
def claimedInferredType (m : MetricDoc) : String :=
  match m.metric_type with
  | some t => t
  | none =>
    if m.numerator_metric.isSome || m.denominator_metric.isSome then "formula"
    else if m.start_date_field.isSome || m.end_date_field.isSome then
      "calculated"
    else "count"

/-- Modelled from claim C6's words: evaluate the metric under the
inferred type. -/
def claimedDashboardValue (leads : List Lead) (baseQ : Lead → Bool)
    (vals : List (String × ℚ)) (m : MetricDoc) : ℚ :=
  dashboardValue leads baseQ vals
    { m with metric_type := some (claimedInferredType m) }

/-- Stage list used by the avg_lead_age pipeline (kpis.py line 148): the
open_leads config's `field_values`, with the literal default when the
config or the key is missing. -/
def openStagesOf (cfg : Option MetricDoc) : List String :=
  match cfg with
  | some c => c.field_values.getD ["Prospecting", "Qualified"]
  | none => ["Prospecting", "Qualified"]

/-- Stage list used by the avg_closure_time pipeline (kpis.py lines
169-171): won config values plus lost config values, with a literal
default when that concatenation is empty. -/
def closedStagesOf (won lost : Option MetricDoc) : List String :=
  let s :=
    (match won with
     | some c => c.field_values.getD []
     | none => []) ++
    (match lost with
     | some c => c.field_values.getD []
     | none => [])
  if s.isEmpty then ["Closed-Won", "Order Booked", "Closed-Lost", "Closed-Dropped"]
  else s

/-- Arithmetic mean of a list of integer day-deltas, as the `$avg`
accumulator computes it (0 on the empty list, since ℚ division by zero
is 0 and the empty sum is 0). -/
def ratMean (ds : List Int) : ℚ :=
  ((ds.map (fun d => (d : ℚ))).sum) / ds.length

/-- Day-deltas of the avg_lead_age pipeline (kpis.py lines 150-163):
`today - enquiry_date` for every base-filtered lead whose stage is in
the open-stage list. No sign filter is applied in this pipeline. -/
def leadAgeDeltas (leads : List Lead) (baseQ : Lead → Bool)
    (stages : List String) (today : Int) : List Int :=
  (leads.filter (fun l => baseQ l && stages.contains l.enquiry_stage)).map
    (fun l => today - l.enquiry_date)

/-- Embedding of the avg_lead_age computation (kpis.py lines 150-166):
mean of `leadAgeDeltas` rounded to 1 decimal place; 0 when the pipeline
returns no group or a falsy (zero) average. -/
def avgLeadAge (leads : List Lead) (baseQ : Lead → Bool)
    (stages : List String) (today : Int) : ℚ :=
  let ds := leadAgeDeltas leads baseQ stages today
  if ds.isEmpty then 0
  else
    let avg := ratMean ds
    if avg = 0 then 0 else pyRound avg 1

/-- Day-deltas of the avg_closure_time pipeline before its sign filter
(kpis.py lines 174-192): `last_followup_date - enquiry_date` for every
base-filtered lead whose stage is in the closed-stage list and whose
`last_followup_date` is present. -/
def closureDeltasAll (leads : List Lead) (baseQ : Lead → Bool)
    (stages : List String) : List Int :=
  (leads.filter (fun l =>
      baseQ l && stages.contains l.enquiry_stage &&
        l.last_followup_date.isSome)).map
    (fun l => l.last_followup_date.getD 0 - l.enquiry_date)

/-- Day-deltas of the avg_closure_time pipeline after its
`closure_days >= 0` match stage (kpis.py line 193). -/
def closureDeltas (leads : List Lead) (baseQ : Lead → Bool)
    (stages : List String) : List Int :=
  (closureDeltasAll leads baseQ stages).filter (fun d => 0 ≤ d)

/-- Embedding of the avg_closure_time computation (kpis.py lines
174-198): mean of the sign-filtered deltas rounded to 1 decimal place;
0 when no delta survives or the average is falsy. -/
def avgClosureTime (leads : List Lead) (baseQ : Lead → Bool)
    (stages : List String) : ℚ :=
  let ds := closureDeltas leads baseQ stages
  if ds.isEmpty then 0
  else
    let avg := ratMean ds
    if avg = 0 then 0 else pyRound avg 1

/-- Modelled from the spec's and claim C1's words, for comparison with
the code: the mean over valid day-deltas only, a delta being valid when
non-negative, with negative deltas excluded from both numerator and
denominator, and 0 when no valid delta remains. -/
def claimedMeanNonneg (ds : List Int) : ℚ :=
  let valid := ds.filter (fun d => 0 ≤ d)
  if valid.isEmpty then 0 else ratMean valid

/-- Mean over all deltas, 0 when there are none; the shape that
avg_lead_age actually averages (no sign filter). -/
def meanAll (ds : List Int) : ℚ :=
  if ds.isEmpty then 0 else ratMean ds

/-- Modelled from claim C1's words: the claimed avg_lead_age value,
averaging the non-negative deltas of leads whose stage is in the
metric's own `filter_stages`. -/
def claimedAvgLeadAge (leads : List Lead) (baseQ : Lead → Bool)
    (filterStages : List String) (today : Int) : ℚ :=
  claimedMeanNonneg (leadAgeDeltas leads baseQ filterStages today)

/-- An answer as submitted in the request body of qualify_lead
(qualification.py lines 203-220): both keys are read with `dict.get`
and may be absent. -/
structure AnswerInput where
  question_id : Option String
  option_id : Option String

/-- An answer option of a qualification question; `option_id` is read
with `dict.get` when matching, so it is optional here. -/
structure QOption where
  option_id : Option String
  text : String := ""
  score : Int := 0

/-- A qualification question as fetched for scoring (already filtered to
`is_active` by the query in qualification.py lines 207-210). -/
structure Question where
  question_id : String
  options : List QOption
  is_required : Bool := true

/-- Embedding of `question_map` lookup (qualification.py line 212): a
dict comprehension keeps the last question with a given id. -/
def questionLookup (catalog : List Question) (qid : String) : Option Question :=
  catalog.reverse.find? (fun q => q.question_id = qid)

/-- Embedding of the option-score loop (qualification.py lines 228-232):
the first option whose `option_id` equals the submitted one gives the
score, otherwise the score stays 0. -/
def optionScore (q : Question) (oid : Option String) : Int :=
  match q.options.find? (fun o => o.option_id = oid) with
  | some o => o.score
  | none => 0

/-- Embedding of the scoring loop of qualify_lead (qualification.py
lines 214-242), processing the submitted answers in order: an answer
whose question id is missing or not in the catalog is skipped; otherwise
the selected option's score (0 when no option matches) is added to the
total and the answer is recorded in the breakdown with that score. -/
def scoreAnswers (catalog : List Question) :
    List AnswerInput → Int × List StoredAnswer
  | [] => (0, [])
  | a :: rest =>
    let res := scoreAnswers catalog rest
    match a.question_id with
    | none => res
    | some qid =>
      match questionLookup catalog qid with
      | none => res
      | some q =>
        let s := optionScore q a.option_id
        (s + res.1, ⟨qid, a.option_id, s⟩ :: res.2)

/-- A qualification_settings document; `threshold_score` is read with
`dict.get(..., 0)`. -/
structure QSettings where
  threshold_score : Option Int := none

/-- Embedding of the threshold lookup (qualification.py line 249):
default 0 when the settings document or the key is missing. -/
def thresholdOf (settings : Option QSettings) : Int :=
  match settings with
  | some s => s.threshold_score.getD 0
  | none => 0

/-- The response body of qualify_lead (qualification.py lines 286-292). -/
structure QualifyResult where
  total_score : Int
  threshold : Int
  is_qualified : Bool

/-- Embedding of qualify_lead's compute-and-store step (qualification.py
lines 214-268): score the answers against the active catalog, compare
with the threshold (qualified iff `total_score >= threshold`), and
overwrite the lead's qualification fields wholesale. -/
def qualifyLead (lead : Lead) (answers : List AnswerInput)
    (catalog : List Question) (settings : Option QSettings) :
    Lead × QualifyResult :=
  let scored := scoreAnswers catalog answers
  let threshold := thresholdOf settings
  let isq := threshold ≤ scored.1
  ({ lead with
      qualification_answers := scored.2,
      qualification_score := some scored.1,
      is_qualified := some (decide isq) },
   ⟨scored.1, threshold, decide isq⟩)

/-- Removal of the first document matching a metric id, the effect of
Mongo `delete_one` (metric_settings.py line 233). -/
def eraseFirstById : List MetricDoc → String → List MetricDoc
  | [], _ => []
  | m :: rest, mid =>
    if m.metric_id = mid then rest else m :: eraseFirstById rest mid

/-- Embedding of delete_metric (metric_settings.py lines 217-234) over a
metric-settings store: 404 when no document matches, 400 when the
matched document is not custom (`is_custom` defaulting to false), else
the document is removed; on error the store is unchanged. -/
def delete_metric (store : List MetricDoc) (mid : String) :
    List MetricDoc × Option ℕ :=
  match store.find? (fun m => m.metric_id = mid) with
  | none => (store, some 404)
  | some m =>
    if m.is_custom.getD false = false then (store, some 400)
    else (eraseFirstById store mid, none)

/-- Contribution of one submitted answer to the total score, following
the spec's words: skipped answers contribute 0, a found question
contributes the selected option's score (0 when no option matches). -/
def answerContribution (catalog : List Question) (a : AnswerInput) : Int :=
  match a.question_id with
  | none => 0
  | some qid =>
    match questionLookup catalog qid with
    | none => 0
    | some q => optionScore q a.option_id

/-- Concrete question used by witnesses: one Yes option worth 10. -/
def qYes : Question :=
  { question_id := "q1",
    options := [{ option_id := some "o1", text := "Yes", score := 10 }] }

/-- Concrete one-question catalog. -/
def catalog1 : List Question := [qYes]

/-- Concrete answer naming a question id absent from `catalog1`. -/
def ansUnknownQ : AnswerInput :=
  { question_id := some "zz", option_id := some "o1" }

/-- Concrete answer naming a known question but an unknown option id. -/
def ansUnknownOpt : AnswerInput :=
  { question_id := some "q1", option_id := some "bogus" }

/-- The default conversion_rate configuration document
(models/metric_settings.py lines 175-191, computation-relevant keys). -/
def convCfg0 : MetricDoc :=
  { metric_id := "conversion_rate", metric_type := some "formula",
    numerator_metric := some "won_leads",
    denominator_metric := some "won_leads+lost_leads",
    is_active := some true }

/-- Conversion config whose denominator names only an unknown metric. -/
def cfgZeroDen : MetricDoc :=
  { metric_id := "conversion_rate", metric_type := some "formula",
    numerator_metric := some "won_leads",
    denominator_metric := some "zz_unknown",
    is_active := some true }

/-- Concrete metric values: won = 3, lost = 1 (spec scenario 8). -/
def vals0 : List (String × ℚ) := [("won_leads", 3), ("lost_leads", 1)]

/-- Concrete open_leads config whose `field_values` is Prospecting. -/
def openCfgCE : MetricDoc :=
  { metric_id := "open_leads", field_name := some "enquiry_stage",
    field_values := some ["Prospecting"], is_active := some true }

/-- Concrete avg_lead_age config whose own `filter_stages` differs from
the open_leads `field_values`. -/
def avgAgeCfgCE : MetricDoc :=
  { metric_id := "avg_lead_age", metric_type := some "calculated",
    start_date_field := some "enquiry_date", end_date_field := some "today",
    filter_stages := some ["Proposal"], is_active := some true }

/-- Concrete open lead whose enquiry_date is 5 days after "today" = 0,
so its lead-age delta is -5. -/
def leadNeg : Lead :=
  { enquiry_stage := "Prospecting", enquiry_status := "Open",
    enquiry_type := "Hot", segment := "GEN", enquiry_date := 5 }

/-- Concrete open lead whose enquiry_date is 4 days before "today" = 0. -/
def leadPos : Lead :=
  { enquiry_stage := "Prospecting", enquiry_status := "Open",
    enquiry_type := "Hot", segment := "GEN", enquiry_date := -4 }

/-- Three open leads with lead-age deltas 0, 0 and 1 at "today" = 0, so
the pipeline average is 1/3. -/
def leadsThird : List Lead :=
  [{ enquiry_stage := "Prospecting", enquiry_status := "Open",
     enquiry_type := "Hot", segment := "GEN", enquiry_date := 0 },
   { enquiry_stage := "Prospecting", enquiry_status := "Open",
     enquiry_type := "Warm", segment := "GEN", enquiry_date := 0 },
   { enquiry_stage := "Prospecting", enquiry_status := "Open",
     enquiry_type := "Cold", segment := "GEN", enquiry_date := -1 }]

/-- Concrete legacy custom metric: no `metric_type`, but numerator and
denominator set. -/
def customNoType : MetricDoc :=
  { metric_id := "my_custom_rate", numerator_metric := some "won_leads",
    denominator_metric := some "total_leads", is_active := some true }

/-- Concrete legacy document with a schema-known id and formula
parameters set. -/
def wonNoType : MetricDoc :=
  { metric_id := "won_leads", numerator_metric := some "a",
    denominator_metric := some "b" }

/-- Concrete legacy custom metric with a numerator but no stored
denominator, exercising the migration's denominator backfill. -/
def customNoDen : MetricDoc :=
  { metric_id := "my_custom_rate2", numerator_metric := some "won_leads",
    is_active := some true }

/-- Concrete metric values for the custom-formula scenario. -/
def vals6 : List (String × ℚ) := [("won_leads", 1), ("total_leads", 2)]

/-- Concrete disabled count metric. -/
def inactiveCfg : MetricDoc :=
  { metric_id := "won_leads", field_name := some "enquiry_stage",
    field_values := some ["Closed-Won"], is_active := some false }

/-- Concrete won lead that would match `inactiveCfg` were it active. -/
def leadWon : Lead :=
  { enquiry_stage := "Closed-Won", enquiry_status := "Closed",
    enquiry_type := "Hot", segment := "GEN", enquiry_date := 0 }

/-- Concrete non-custom (default) metric document. -/
def defaultDoc : MetricDoc := { metric_id := "won_leads", is_custom := some false }

/-- Concrete custom metric document. -/
def customDoc : MetricDoc := { metric_id := "my_metric", is_custom := some true }

/-- Concrete metric-settings store holding one default and one custom
metric. -/
def storeW : List MetricDoc := [defaultDoc, customDoc]

/-- Rounding step lemma: when the scaled value sits strictly below the
half-way point, `roundHalfEven` is the floor. -/
theorem roundHalfEven_of_floor_lt_half (q : ℚ) (f : ℤ) (hf : ⌊q⌋ = f)
    (h : q - f < 1/2) : roundHalfEven q = f := by
  unfold roundHalfEven
  simp only [hf]
  rw [if_pos h]

/-- An integer rounds to itself. -/
theorem roundHalfEven_intCast (n : ℤ) : roundHalfEven (n : ℚ) = n := by
  apply roundHalfEven_of_floor_lt_half
  · exact Int.floor_intCast n
  · norm_num

/-- Python round leaves an integer value unchanged at any precision. -/
theorem pyRound_intCast (n : ℤ) (nd : ℕ) : pyRound (n : ℚ) nd = n := by
  unfold pyRound
  have h : ((n : ℚ) * 10 ^ nd) = ((n * 10 ^ nd : ℤ) : ℚ) := by push_cast; ring
  rw [h, roundHalfEven_intCast]
  push_cast
  rw [mul_div_assoc, div_self (by positivity), mul_one]

/-- Python round of 0 is 0. -/
theorem pyRound_zero (nd : ℕ) : pyRound 0 nd = 0 := by
  have h := pyRound_intCast 0 nd
  simpa using h

/-- The scoring loop distributes over list append: totals add and
breakdowns concatenate. -/
theorem scoreAnswers_append (catalog : List Question)
    (xs ys : List AnswerInput) :
    scoreAnswers catalog (xs ++ ys) =
      ((scoreAnswers catalog xs).1 + (scoreAnswers catalog ys).1,
       (scoreAnswers catalog xs).2 ++ (scoreAnswers catalog ys).2) := by
  induction xs with
  | nil => simp [scoreAnswers]
  | cons a rest ih =>
    cases h : a.question_id with
    | none => simp [scoreAnswers, h, ih]
    | some qid =>
      cases h2 : questionLookup catalog qid with
      | none => simp [scoreAnswers, h, h2, ih]
      | some q => simp [scoreAnswers, h, h2, ih, add_assoc]

/-- The accumulated total is the sum of per-answer contributions. -/
theorem scoreAnswers_fst_eq_contrib (catalog : List Question)
    (answers : List AnswerInput) :
    (scoreAnswers catalog answers).1 =
      (answers.map (answerContribution catalog)).sum := by
  induction answers with
  | nil => simp [scoreAnswers]
  | cons a rest ih =>
    cases h : a.question_id with
    | none => simp [scoreAnswers, answerContribution, h, ih]
    | some qid =>
      cases h2 : questionLookup catalog qid with
      | none => simp [scoreAnswers, answerContribution, h, h2, ih]
      | some q => simp [scoreAnswers, answerContribution, h, h2, ih]

/-- The accumulated total is the sum of the recorded breakdown scores. -/
theorem scoreAnswers_fst_eq_breakdown_sum (catalog : List Question)
    (answers : List AnswerInput) :
    (scoreAnswers catalog answers).1 =
      ((scoreAnswers catalog answers).2.map StoredAnswer.score).sum := by
  induction answers with
  | nil => simp [scoreAnswers]
  | cons a rest ih =>
    cases h : a.question_id with
    | none => simp [scoreAnswers, h, ih]
    | some qid =>
      cases h2 : questionLookup catalog qid with
      | none => simp [scoreAnswers, h, h2, ih]
      | some q => simp [scoreAnswers, h, h2, ih]

/-- Claim C3: over every submitted answer list and question catalog, the
qualification total equals the sum of the selected options' scores; an
answer whose question id resolves to nothing in the catalog is silently
skipped, affecting neither the total nor the breakdown; an answer whose
question is found but whose option id matches no option contributes 0
and is still recorded in the breakdown with score 0. -/
theorem qualification_scoring_skip_semantics (catalog : List Question)
    (answers : List AnswerInput) :
    (scoreAnswers catalog answers).1 =
      (answers.map (answerContribution catalog)).sum ∧
    (∀ a : AnswerInput,
      a.question_id.bind (fun qid => questionLookup catalog qid) = none →
      scoreAnswers catalog (answers ++ [a]) = scoreAnswers catalog answers) ∧
    (∀ (a : AnswerInput) (qid : String) (q : Question),
      a.question_id = some qid →
      questionLookup catalog qid = some q →
      q.options.find? (fun o => o.option_id = a.option_id) = none →
      scoreAnswers catalog (answers ++ [a]) =
        ((scoreAnswers catalog answers).1,
         (scoreAnswers catalog answers).2 ++ [⟨qid, a.option_id, 0⟩])) := by
  refine ⟨scoreAnswers_fst_eq_contrib catalog answers, ?_, ?_⟩
  · intro a ha
    rw [scoreAnswers_append]
    cases h : a.question_id with
    | none => simp [scoreAnswers, h]
    | some qid =>
      have ha2 : questionLookup catalog qid = none := by
        rw [h] at ha
        exact ha
      simp [scoreAnswers, h, ha2]
  · intro a qid q hqid hq hopt
    rw [scoreAnswers_append]
    have hscore : optionScore q a.option_id = 0 := by
      unfold optionScore
      rw [hopt]
    simp [scoreAnswers, hqid, hq, hscore]

/-- Claim C3 witness: in the concrete one-question catalog, an answer
with an unknown question id is skipped entirely, and an answer with an
unknown option id is recorded with score 0. -/
theorem qualification_scoring_skip_semantics_witness :
    scoreAnswers catalog1 ([] ++ [ansUnknownQ]) = scoreAnswers catalog1 [] ∧
    scoreAnswers catalog1 ([] ++ [ansUnknownOpt]) =
      ((scoreAnswers catalog1 []).1,
       (scoreAnswers catalog1 []).2 ++ [⟨"q1", some "bogus", 0⟩]) := by
  have h := qualification_scoring_skip_semantics catalog1 []
  exact ⟨h.2.1 ansUnknownQ rfl, h.2.2 ansUnknownOpt "q1" qYes rfl rfl rfl⟩

/-- Claim C4: a lead is classified Qualified exactly when the total
score reaches the threshold (equality qualifies); an empty answer list
scores 0, so with no settings document (threshold defaulting to 0) an
empty submission is Qualified. -/
theorem qualification_threshold_semantics (lead : Lead)
    (answers : List AnswerInput) (catalog : List Question)
    (settings : Option QSettings) :
    ((qualifyLead lead answers catalog settings).2.is_qualified = true ↔
      thresholdOf settings ≤ (scoreAnswers catalog answers).1) ∧
    (scoreAnswers catalog []).1 = 0 ∧
    thresholdOf none = 0 ∧
    (qualifyLead lead [] catalog none).2.is_qualified = true := by
  refine ⟨?_, rfl, rfl, ?_⟩
  · simp [qualifyLead]
  · simp [qualifyLead, scoreAnswers, thresholdOf]

/-- Claim C8: re-running qualification with identical answers, catalog
and settings is idempotent: the second run stores the same score and the
same classification (and returns the same response). -/
theorem qualify_idempotent (lead : Lead) (answers : List AnswerInput)
    (catalog : List Question) (settings : Option QSettings) :
    ((qualifyLead (qualifyLead lead answers catalog settings).1 answers
        catalog settings).1.qualification_score =
      (qualifyLead lead answers catalog settings).1.qualification_score) ∧
    ((qualifyLead (qualifyLead lead answers catalog settings).1 answers
        catalog settings).1.is_qualified =
      (qualifyLead lead answers catalog settings).1.is_qualified) ∧
    ((qualifyLead (qualifyLead lead answers catalog settings).1 answers
        catalog settings).2 =
      (qualifyLead lead answers catalog settings).2) :=
  ⟨rfl, rfl, rfl⟩

/-- Claim C9: after qualify, the stored score equals the sum of the
stored breakdown's score fields, and the returned total equals the
stored score. -/
theorem qualification_score_consistency (lead : Lead)
    (answers : List AnswerInput) (catalog : List Question)
    (settings : Option QSettings) :
    (qualifyLead lead answers catalog settings).1.qualification_score =
      some (((qualifyLead lead answers catalog
        settings).1.qualification_answers).map StoredAnswer.score).sum ∧
    (qualifyLead lead answers catalog settings).1.qualification_score =
      some (qualifyLead lead answers catalog settings).2.total_score := by
  constructor
  · simp [qualifyLead, scoreAnswers_fst_eq_breakdown_sum]
  · rfl

/-- Claim C7: a count metric whose configuration is explicitly disabled
evaluates to 0 for every population and base filter. -/
theorem inactive_count_metric_zero (leads : List Lead)
    (baseQ : Lead → Bool) (m : MetricDoc) (h : m.is_active = some false) :
    count_by_metric leads baseQ (some m) = 0 := by
  simp [count_by_metric, h]

/-- Claim C7 witness: the disabled won_leads config counts 0 even over a
population containing a matching lead. -/
theorem inactive_count_metric_zero_witness :
    count_by_metric [leadWon] (fun _ => true) (some inactiveCfg) = 0 :=
  inactive_count_metric_zero [leadWon] (fun _ => true) inactiveCfg rfl

/-- Claim C10: deleting a metric that exists but is not custom fails
with 400 and leaves the store unchanged; a delete succeeds only when the
matched document has `is_custom = true`. -/
theorem delete_default_metric_blocked (store : List MetricDoc)
    (mid : String) :
    (∀ m : MetricDoc,
      store.find? (fun x => x.metric_id = mid) = some m →
      m.is_custom.getD false = false →
      delete_metric store mid = (store, some 400)) ∧
    ((delete_metric store mid).2 = none →
      ∃ m : MetricDoc,
        store.find? (fun x => x.metric_id = mid) = some m ∧
        m.is_custom = some true) := by
  constructor
  · intro m hfind hcustom
    unfold delete_metric
    rw [hfind]
    simp [hcustom]
  · intro hok
    unfold delete_metric at hok
    split at hok
    next heq => simp at hok
    next m heq =>
      split at hok
      next hc => simp at hok
      next hc =>
        cases hcu : m.is_custom with
        | none =>
          rw [hcu] at hc
          exact absurd rfl hc
        | some b =>
          cases b with
          | false =>
            rw [hcu] at hc
            exact absurd rfl hc
          | true => exact ⟨m, heq, hcu⟩

/-- Claim C10 witness: deleting the non-custom won_leads document from
the concrete store yields 400 and the unchanged store. -/
theorem delete_default_metric_blocked_witness :
    delete_metric storeW "won_leads" = (storeW, some 400) :=
  (delete_default_metric_blocked storeW "won_leads").1 defaultDoc rfl rfl

/-- Claim C2: a formula metric splits its numerator and denominator
expressions on "+", sums the named already-computed values with unknown
names contributing 0, and yields the ratio times 100 when the summed
denominator is strictly positive, exactly 0 when it is 0 (total on ℚ,
so no NaN or infinity can arise); concretely, conversion_rate with
numerator won_leads and denominator won_leads+lost_leads at won = 3,
lost = 1 evaluates to 75, also when an unknown metric name is added to
the denominator expression. -/
theorem formula_metric_semantics :
    (∀ (vals : List (String × ℚ)) (num den : String),
      sumMetricTokensDash vals den = 0 → evalFormulaDash vals num den = 0) ∧
    (∀ (vals : List (String × ℚ)) (num den : String),
      0 < sumMetricTokensDash vals den →
      evalFormulaDash vals num den =
        pyRound
          (sumMetricTokensDash vals num / sumMetricTokensDash vals den * 100)
          2) ∧
    (∀ (c : MetricDoc) (vals : List (String × ℚ)) (won lost : ℚ),
      truthyStr c.numerator_metric = true →
      truthyStr c.denominator_metric = true →
      sumMetricTokens vals (c.denominator_metric.getD "won_leads+lost_leads") =
        0 →
      conversionRate (some c) vals won lost = 0) ∧
    (∀ (c : MetricDoc) (vals : List (String × ℚ)) (won lost : ℚ),
      truthyStr c.numerator_metric = true →
      truthyStr c.denominator_metric = true →
      0 <
        sumMetricTokens vals (c.denominator_metric.getD "won_leads+lost_leads") →
      conversionRate (some c) vals won lost =
        sumMetricTokens vals (c.numerator_metric.getD "won_leads") /
          sumMetricTokens vals (c.denominator_metric.getD "won_leads+lost_leads") *
          100) ∧
    conversionRate (some convCfg0) vals0 3 1 = 75 ∧
    evalFormulaDash vals0 "won_leads" "won_leads+lost_leads" = 75 ∧
    evalFormulaDash vals0 "won_leads" "won_leads+lost_leads+mystery_metric" =
      75 := by
  have hdash0 : ∀ (vals : List (String × ℚ)) (num den : String),
      sumMetricTokensDash vals den = 0 → evalFormulaDash vals num den = 0 := by
    intro vals num den h
    show (if 0 < sumMetricTokensDash vals den then
        pyRound
          (sumMetricTokensDash vals num / sumMetricTokensDash vals den * 100)
          2
      else 0) = 0
    rw [h]
    simp
  have hdashpos : ∀ (vals : List (String × ℚ)) (num den : String),
      0 < sumMetricTokensDash vals den →
      evalFormulaDash vals num den =
        pyRound
          (sumMetricTokensDash vals num / sumMetricTokensDash vals den * 100)
          2 := by
    intro vals num den h
    show (if 0 < sumMetricTokensDash vals den then
        pyRound
          (sumMetricTokensDash vals num / sumMetricTokensDash vals den * 100)
          2
      else 0) = _
    rw [if_pos h]
  refine ⟨hdash0, hdashpos, ?_, ?_, ?_, ?_, ?_⟩
  · intro c vals won lost h1 h2 h0
    simp only [conversionRate, h1, h2, Bool.and_self, if_true]
    rw [h0]
    simp
  · intro c vals won lost h1 h2 h0
    simp only [conversionRate, h1, h2, Bool.and_self, if_true]
    rw [if_pos h0]
  · show (if 0 < sumMetricTokens vals0 "won_leads+lost_leads" then
        sumMetricTokens vals0 "won_leads" /
          sumMetricTokens vals0 "won_leads+lost_leads" * 100
      else 0) = 75
    have hd : sumMetricTokens vals0 "won_leads+lost_leads" = 3 + (1 + 0) := rfl
    have hn : sumMetricTokens vals0 "won_leads" = 3 + 0 := rfl
    rw [hd, hn, if_pos (by norm_num)]
    norm_num
  · show (if 0 < sumMetricTokensDash vals0 "won_leads+lost_leads" then
        pyRound
          (sumMetricTokensDash vals0 "won_leads" /
            sumMetricTokensDash vals0 "won_leads+lost_leads" * 100)
          2
      else 0) = 75
    have hd : sumMetricTokensDash vals0 "won_leads+lost_leads" = 3 + (1 + 0) :=
      rfl
    have hn : sumMetricTokensDash vals0 "won_leads" = 3 + 0 := rfl
    rw [hd, hn, if_pos (by norm_num)]
    have h75 : ((3 : ℚ) + 0) / (3 + (1 + 0)) * 100 = ((75 : ℤ) : ℚ) := by
      norm_num
    rw [h75, pyRound_intCast]
    norm_num
  · show (if 0 < sumMetricTokensDash vals0 "won_leads+lost_leads+mystery_metric"
      then
        pyRound
          (sumMetricTokensDash vals0 "won_leads" /
            sumMetricTokensDash vals0 "won_leads+lost_leads+mystery_metric" *
            100)
          2
      else 0) = 75
    have hd : sumMetricTokensDash vals0 "won_leads+lost_leads+mystery_metric" =
        3 + (1 + (0 + 0)) := rfl
    have hn : sumMetricTokensDash vals0 "won_leads" = 3 + 0 := rfl
    rw [hd, hn, if_pos (by norm_num)]
    have h75 : ((3 : ℚ) + 0) / (3 + (1 + (0 + 0))) * 100 = ((75 : ℤ) : ℚ) := by
      norm_num
    rw [h75, pyRound_intCast]
    norm_num

/-- Claim C2 witness: the zero-denominator and positive-denominator
cases of the formula evaluator, and the configured conversion-rate
cases, discharged at concrete inputs. -/
theorem formula_metric_semantics_witness :
    evalFormulaDash vals0 "won_leads" "zz_unknown" = 0 ∧
    evalFormulaDash vals0 "won_leads" "won_leads+lost_leads" =
      pyRound
        (sumMetricTokensDash vals0 "won_leads" /
          sumMetricTokensDash vals0 "won_leads+lost_leads" * 100)
        2 ∧
    conversionRate (some cfgZeroDen) vals0 3 1 = 0 ∧
    conversionRate (some convCfg0) vals0 3 1 =
      sumMetricTokens vals0 "won_leads" /
        sumMetricTokens vals0 "won_leads+lost_leads" * 100 := by
  have h := formula_metric_semantics
  refine ⟨?_, ?_, ?_, ?_⟩
  · refine h.1 vals0 "won_leads" "zz_unknown" ?_
    have hz : sumMetricTokensDash vals0 "zz_unknown" = 0 + 0 := rfl
    rw [hz]
    norm_num
  · refine h.2.1 vals0 "won_leads" "won_leads+lost_leads" ?_
    have hd : sumMetricTokensDash vals0 "won_leads+lost_leads" = 3 + (1 + 0) :=
      rfl
    rw [hd]
    norm_num
  · refine h.2.2.1 cfgZeroDen vals0 3 1 rfl rfl ?_
    have hz : sumMetricTokens vals0 "zz_unknown" = 0 + 0 := rfl
    show sumMetricTokens vals0 "zz_unknown" = 0
    rw [hz]
    norm_num
  · refine h.2.2.2.1 convCfg0 vals0 3 1 rfl rfl ?_
    show 0 < sumMetricTokens vals0 "won_leads+lost_leads"
    have hd : sumMetricTokens vals0 "won_leads+lost_leads" = 3 + (1 + 0) := rfl
    rw [hd]
    norm_num

/-- Truthiness of an optional string agrees with presence as long as the
value is not the empty string. -/
theorem truthyStr_eq_isSome (f : Option String) (hf : f ≠ some "") :
    truthyStr f = f.isSome := by
  cases f with
  | none => rfl
  | some s =>
    have hs : s ≠ "" := by
      intro h
      exact hf (by rw [h])
    simp [truthyStr, hs]

/-- Claim C6 counterexample: the dashboard loop evaluates a stored
config lacking `metric_type` as a count metric, not under the type
inferred from its parameters: the custom ratio config with numerator
and denominator set evaluates to 0 where the claimed inference yields
50; and the startup migration resolves a schema-known id from its fixed
table, ignoring the parameters the claim says drive the inference. -/
theorem metric_type_inference_ce :
    dashboardValue [] (fun _ => true) vals6 customNoType = 0 ∧
    claimedDashboardValue [] (fun _ => true) vals6 customNoType = 50 ∧
    migrateMetricType wonNoType = "count" ∧
    claimedInferredType wonNoType = "formula" ∧
    (0 : ℚ) ≠ 50 ∧ ("count" : String) ≠ "formula" := by
  refine ⟨?_, ?_, rfl, rfl, by norm_num, by decide⟩
  · show ((count_by_metric [] (fun _ => true) (some customNoType) : ℕ) : ℚ) = 0
    norm_num [count_by_metric]
  · show evalFormulaDash vals6 "won_leads" "total_leads" = 50
    show (if 0 < sumMetricTokensDash vals6 "total_leads" then
        pyRound
          (sumMetricTokensDash vals6 "won_leads" /
            sumMetricTokensDash vals6 "total_leads" * 100)
          2
      else 0) = 50
    have hd : sumMetricTokensDash vals6 "total_leads" = 2 + 0 := rfl
    have hn : sumMetricTokensDash vals6 "won_leads" = 1 + 0 := rfl
    rw [hd, hn, if_pos (by norm_num)]
    have h50 : ((1 : ℚ) + 0) / (2 + 0) * 100 = ((50 : ℤ) : ℚ) := by norm_num
    rw [h50, pyRound_intCast]
    norm_num

/-- An id without a `metric_schema` row is in particular not
conversion_rate, so the row lookups for the formula parameters miss. -/
theorem schemaNumDen_none (id : String) (h : metricSchemaType id = none) :
    schemaNumEntry id = none ∧ schemaDenEntry id = none := by
  have hc : ¬(id = "conversion_rate") := by
    intro he
    rw [he] at h
    exact absurd h (by decide)
  constructor
  · simp [schemaNumEntry, hc]
  · simp [schemaDenEntry, hc]

/-- Claim C6 amended: the dashboard loop treats a missing `metric_type`
as "count" (no inference from parameters at evaluation time); the
startup migration backfills a missing `metric_type` from its fixed
schema table for known metric ids and infers it from the truthy
parameters only for unknown ids; it also backfills missing formula
parameters for the effective type (in particular a missing
denominator_metric becomes "total_leads"), after which the metric is
evaluated under the backfilled type with the backfilled parameters. -/
theorem metric_type_default_count_amended :
    (∀ (m : MetricDoc) (leads : List Lead) (baseQ : Lead → Bool)
        (vals : List (String × ℚ)),
      m.metric_type = none →
      dashboardValue leads baseQ vals m =
        ((count_by_metric leads baseQ (some m) : ℕ) : ℚ)) ∧
    (∀ m : MetricDoc,
      m.metric_type = none →
      metricSchemaType m.metric_id = none →
      m.numerator_metric ≠ some "" →
      m.denominator_metric ≠ some "" →
      m.start_date_field ≠ some "" →
      m.end_date_field ≠ some "" →
      migrateMetricType m = claimedInferredType m) ∧
    (∀ (m : MetricDoc) (leads : List Lead) (baseQ : Lead → Bool)
        (vals : List (String × ℚ)),
      m.metric_type = none →
      metricSchemaType m.metric_id = none →
      truthyStr m.numerator_metric = true →
      truthyStr m.denominator_metric = true →
      dashboardValue leads baseQ vals (migratedDoc m) =
        evalFormulaDash vals (m.numerator_metric.getD "")
          (m.denominator_metric.getD "")) ∧
    (∀ m : MetricDoc,
      m.metric_type = none →
      metricSchemaType m.metric_id = none →
      truthyStr m.numerator_metric = true →
      truthyStr m.denominator_metric = false →
      (migratedDoc m).denominator_metric = some "total_leads" ∧
      ∀ (leads : List Lead) (baseQ : Lead → Bool) (vals : List (String × ℚ)),
        dashboardValue leads baseQ vals (migratedDoc m) =
          evalFormulaDash vals (m.numerator_metric.getD "") "total_leads") := by
  refine ⟨?_, ?_, ?_, ?_⟩
  · intro m leads baseQ vals h
    simp [dashboardValue, h]
  · intro m h hschema h1 h2 h3 h4
    have t1 := truthyStr_eq_isSome m.numerator_metric h1
    have t2 := truthyStr_eq_isSome m.denominator_metric h2
    have t3 := truthyStr_eq_isSome m.start_date_field h3
    have t4 := truthyStr_eq_isSome m.end_date_field h4
    unfold migrateMetricType claimedInferredType
    rw [h, hschema, t1, t2, t3, t4]
    simp [truthyStr]
  · intro m leads baseQ vals h hschema hnum hden
    obtain ⟨hn, hd⟩ := schemaNumDen_none m.metric_id hschema
    have hform : migrateMetricType m = "formula" := by
      unfold migrateMetricType
      rw [h, hschema, hnum]
      simp [truthyStr]
    simp [dashboardValue, migratedDoc, hform, hn, hd, hnum, hden]
  · intro m h hschema hnum hden
    obtain ⟨hn, hd⟩ := schemaNumDen_none m.metric_id hschema
    have hform : migrateMetricType m = "formula" := by
      unfold migrateMetricType
      rw [h, hschema, hnum]
      simp [truthyStr]
    constructor
    · simp [migratedDoc, hform, hn, hd, hden]
    · intro leads baseQ vals
      simp [dashboardValue, migratedDoc, hform, hn, hd, hnum, hden]

/-- Claim C6 amended witness: the amended statements at concrete legacy
custom configs, one with both formula parameters stored and one whose
missing denominator the migration backfills to total_leads. -/
theorem metric_type_default_count_amended_witness :
    dashboardValue [] (fun _ => true) vals6 customNoType =
      ((count_by_metric [] (fun _ => true) (some customNoType) : ℕ) : ℚ) ∧
    migrateMetricType customNoType = claimedInferredType customNoType ∧
    dashboardValue [] (fun _ => true) vals6 (migratedDoc customNoType) =
      evalFormulaDash vals6 "won_leads" "total_leads" ∧
    (migratedDoc customNoDen).denominator_metric = some "total_leads" ∧
    dashboardValue [] (fun _ => true) vals6 (migratedDoc customNoDen) =
      evalFormulaDash vals6 "won_leads" "total_leads" := by
  have h := metric_type_default_count_amended
  have h4 := h.2.2.2 customNoDen rfl rfl rfl rfl
  refine ⟨h.1 customNoType [] (fun _ => true) vals6 rfl, ?_, ?_, h4.1,
    h4.2 [] (fun _ => true) vals6⟩
  · exact h.2.1 customNoType rfl rfl (by decide) (by decide) (by decide)
      (by decide)
  · exact h.2.2.1 customNoType [] (fun _ => true) vals6 rfl rfl rfl rfl

/-- The avg_lead_age value always equals the unfiltered pipeline mean
rounded to 1 decimal place: the falsy-average guard collapses because
rounding 0 gives 0, and the empty case matches the empty mean. -/
theorem avgLeadAge_eq (leads : List Lead) (baseQ : Lead → Bool)
    (stages : List String) (today : Int) :
    avgLeadAge leads baseQ stages today =
      pyRound (meanAll (leadAgeDeltas leads baseQ stages today)) 1 := by
  unfold avgLeadAge meanAll
  by_cases he : (leadAgeDeltas leads baseQ stages today).isEmpty
  · simp [he, pyRound_zero]
  · simp only [he, if_false, Bool.false_eq_true]
    by_cases hz : ratMean (leadAgeDeltas leads baseQ stages today) = 0
    · simp [hz, pyRound_zero]
    · simp [hz]

/-- The avg_closure_time value always equals the mean over non-negative
closure deltas rounded to 1 decimal place. -/
theorem avgClosureTime_eq (leads : List Lead) (baseQ : Lead → Bool)
    (stages : List String) :
    avgClosureTime leads baseQ stages =
      pyRound (claimedMeanNonneg (closureDeltasAll leads baseQ stages)) 1 := by
  unfold avgClosureTime claimedMeanNonneg
  by_cases he : (closureDeltas leads baseQ stages).isEmpty
  · rw [closureDeltas] at he
    simp [closureDeltas, he, pyRound_zero]
  · rw [closureDeltas] at he
    simp only [closureDeltas, he, if_false, Bool.false_eq_true]
    by_cases hz :
        ratMean ((closureDeltasAll leads baseQ stages).filter
          (fun d => 0 ≤ d)) = 0
    · simp [hz, pyRound_zero]
    · simp [hz]

/-- Claim C1 counterexample: a Prospecting lead whose enquiry_date lies
5 days in the future is not excluded from avg_lead_age, which returns
-5 where the claimed negative-delta exclusion yields 0; and the pipeline
filters on the open_leads config's field_values, not the avg_lead_age
config's own filter_stages, so a Prospecting lead aged 4 days counts
even though the metric's filter_stages name only Proposal. -/
theorem negative_delta_ce :
    avgLeadAge [leadNeg] (fun _ => true) (openStagesOf (some openCfgCE)) 0 =
      -5 ∧
    claimedAvgLeadAge [leadNeg] (fun _ => true) ["Prospecting"] 0 = 0 ∧
    avgLeadAge [leadPos] (fun _ => true) (openStagesOf (some openCfgCE)) 0 =
      4 ∧
    claimedAvgLeadAge [leadPos] (fun _ => true)
      (avgAgeCfgCE.filter_stages.getD []) 0 = 0 ∧
    (-5 : ℚ) ≠ 0 ∧ (4 : ℚ) ≠ 0 := by
  have hds1 :
      leadAgeDeltas [leadNeg] (fun _ => true) (openStagesOf (some openCfgCE))
        0 = [-5] := rfl
  have hds2 :
      leadAgeDeltas [leadPos] (fun _ => true) (openStagesOf (some openCfgCE))
        0 = [4] := rfl
  refine ⟨?_, rfl, ?_, rfl, by norm_num, by norm_num⟩
  · rw [avgLeadAge_eq, hds1]
    have hm : meanAll [-5] = ((-5 : ℤ) : ℚ) := by
      norm_num [meanAll, ratMean]
    rw [hm, pyRound_intCast]
    norm_num
  · rw [avgLeadAge_eq, hds2]
    have hm : meanAll [4] = ((4 : ℤ) : ℚ) := by
      norm_num [meanAll, ratMean]
    rw [hm, pyRound_intCast]
    norm_num

/-- Claim C1 amended: the pre-rounding avg_closure_time value is the
arithmetic mean of the non-negative day-deltas only (negative deltas
excluded from numerator and denominator), while avg_lead_age averages
all deltas of stage-matching leads with no sign exclusion; each exposed
value is its mean rounded to 1 decimal place, and each is 0 when no
(valid) delta exists. -/
theorem calculated_metric_mean_amended (leads : List Lead)
    (baseQ : Lead → Bool) (stages : List String) (today : Int) :
    avgLeadAge leads baseQ stages today =
      pyRound (meanAll (leadAgeDeltas leads baseQ stages today)) 1 ∧
    avgClosureTime leads baseQ stages =
      pyRound (claimedMeanNonneg (closureDeltasAll leads baseQ stages)) 1 ∧
    (leadAgeDeltas leads baseQ stages today = [] →
      avgLeadAge leads baseQ stages today = 0) ∧
    (closureDeltas leads baseQ stages = [] →
      avgClosureTime leads baseQ stages = 0) := by
  refine ⟨avgLeadAge_eq leads baseQ stages today,
    avgClosureTime_eq leads baseQ stages, ?_, ?_⟩
  · intro he
    simp [avgLeadAge, he]
  · intro he
    simp [avgClosureTime, he]

/-- Claim C1 amended witness: over an empty population both calculated
metrics are 0. -/
theorem calculated_metric_mean_amended_witness :
    avgLeadAge [] (fun _ => true) ["Prospecting"] 5 = 0 ∧
    avgClosureTime [] (fun _ => true) ["Closed-Won"] = 0 := by
  have h1 := calculated_metric_mean_amended [] (fun _ => true) ["Prospecting"] 5
  have h2 := calculated_metric_mean_amended [] (fun _ => true) ["Closed-Won"] 0
  exact ⟨h1.2.2.1 rfl, h2.2.2.2 rfl⟩

/-- Claim C5 counterexample: three open leads aged 0, 0 and 1 days give
a raw mean of 1/3; the endpoint returns 0.3 (one decimal place), not the
two-decimal rounding 0.33 the claim requires. -/
theorem rounding_precision_ce :
    avgLeadAge leadsThird (fun _ => true) ["Prospecting"] 0 = 3 / 10 ∧
    pyRound
      (meanAll (leadAgeDeltas leadsThird (fun _ => true) ["Prospecting"] 0))
      2 = 33 / 100 ∧
    ((3 : ℚ) / 10) ≠ 33 / 100 := by
  have hds : leadAgeDeltas leadsThird (fun _ => true) ["Prospecting"] 0 =
      [0, 0, 1] := rfl
  have hm : meanAll [0, 0, 1] = 1 / 3 := by
    norm_num [meanAll, ratMean]
  refine ⟨?_, ?_, by norm_num⟩
  · rw [avgLeadAge_eq, hds, hm]
    unfold pyRound
    rw [roundHalfEven_of_floor_lt_half ((1 : ℚ) / 3 * 10 ^ 1) 3
      (by rw [Int.floor_eq_iff]; norm_num) (by norm_num)]
    norm_num
  · rw [hds, hm]
    unfold pyRound
    rw [roundHalfEven_of_floor_lt_half ((1 : ℚ) / 3 * 10 ^ 2) 33
      (by rw [Int.floor_eq_iff]; norm_num) (by norm_num)]
    norm_num

/-- Claim C5 amended: values are rounded once at the point of exposure,
but not all to 2 decimal places: formula values (dashboard formula
metrics and the exposed conversion rate, itself computed unrounded) use
2 decimal places, while the calculated metrics avg_lead_age and
avg_closure_time are rounded to 1 decimal place. -/
theorem exposure_rounding_amended :
    (∀ (vals : List (String × ℚ)) (num den : String),
      0 < sumMetricTokensDash vals den →
      evalFormulaDash vals num den =
        pyRound
          (sumMetricTokensDash vals num / sumMetricTokensDash vals den * 100)
          2) ∧
    (∀ (cfg : Option MetricDoc) (vals : List (String × ℚ)) (won lost : ℚ),
      exposedConversionRate cfg vals won lost =
        pyRound (conversionRate cfg vals won lost) 2) ∧
    (∀ won lost : ℚ, 0 < won + lost →
      conversionRate none [] won lost = won / (won + lost) * 100) ∧
    (∀ (leads : List Lead) (baseQ : Lead → Bool) (stages : List String)
        (today : Int),
      avgLeadAge leads baseQ stages today =
        pyRound (meanAll (leadAgeDeltas leads baseQ stages today)) 1) ∧
    (∀ (leads : List Lead) (baseQ : Lead → Bool) (stages : List String),
      avgClosureTime leads baseQ stages =
        pyRound (claimedMeanNonneg (closureDeltasAll leads baseQ stages)) 1) := by
  refine ⟨?_, fun cfg vals won lost => rfl, ?_, avgLeadAge_eq,
    avgClosureTime_eq⟩
  · intro vals num den h
    show (if 0 < sumMetricTokensDash vals den then
        pyRound
          (sumMetricTokensDash vals num / sumMetricTokensDash vals den * 100)
          2
      else 0) = _
    rw [if_pos h]
  · intro won lost h
    show defaultConversion won lost = won / (won + lost) * 100
    unfold defaultConversion
    rw [if_pos h]

/-- Claim C5 amended witness: the rounding placements at concrete
inputs, with the positivity hypotheses discharged. -/
theorem exposure_rounding_amended_witness :
    evalFormulaDash vals0 "won_leads" "won_leads+lost_leads" =
      pyRound
        (sumMetricTokensDash vals0 "won_leads" /
          sumMetricTokensDash vals0 "won_leads+lost_leads" * 100)
        2 ∧
    conversionRate none [] 3 1 = 3 / (3 + 1) * 100 ∧
    avgLeadAge [] (fun _ => true) [] 0 =
      pyRound (meanAll (leadAgeDeltas [] (fun _ => true) [] 0)) 1 := by
  have h := exposure_rounding_amended
  refine ⟨h.1 vals0 "won_leads" "won_leads+lost_leads" ?_,
    h.2.2.1 3 1 (by norm_num), h.2.2.2.1 [] (fun _ => true) [] 0⟩
  have hd : sumMetricTokensDash vals0 "won_leads+lost_leads" = 3 + (1 + 0) :=
    rfl
  rw [hd]
  norm_num
